import Mathlib

/-!
Verification of the generation-routing and response-extraction pipeline of the
`cs224v-project` repository (a resume-to-website assistant built around LLM
completion calls).  The deterministic orchestration and extraction logic is
embedded shallowly: raw model responses are `List Char` (Python `str`), the
completion service is an oracle parameter, stateful methods become explicit
state-passing functions, and Python exceptions are `Except` values.
-/

namespace CS224V

/-! ## Python string primitives over `List Char` -/

/-- Characters removed by Python `str.strip()` (whitespace). -/
def pySpace (c : Char) : Bool :=
  c = ' ' || c = '\t' || c = '\n' || c = '\r' || c = Char.ofNat 11 || c = Char.ofNat 12

/-- Python `str.strip()`: drop leading and trailing whitespace. -/
def pyStrip (l : List Char) : List Char :=
  ((l.dropWhile pySpace).reverse.dropWhile pySpace).reverse

/-- Boolean test that `p` is a leading segment of `l` (used to model Python
substring search at a given offset). -/
def isPre : List Char → List Char → Bool
  | [], _ => true
  | _ :: _, [] => false
  | a :: as, b :: bs => a == b && isPre as bs

/-- Linear scan underlying `pyFind`: try offsets `i, i+1, ...` for `fuel` steps. -/
def findAux (text pat : List Char) : Nat → Nat → Option Nat
  | _, 0 => none
  | i, fuel + 1 =>
    if isPre pat (text.drop i) then some i else findAux text pat (i + 1) fuel

/-- Python `text.find(pat, start)`: the least offset `≥ start` at which `pat`
occurs in `text` (`none` models the `-1` result). -/
def pyFind (text pat : List Char) (start : Nat) : Option Nat :=
  findAux text pat start (text.length + 1 - start)

/-! ## ArtifactExtractor: `HomeScreenGeneratorAgent._extract_code_block`
(src/langchain_agents/agents/home_screen_generator.py lines 810-841). -/

/-- The bare code-fence marker (three backticks). -/
def fenceL : List Char := "```".toList

/-- Shared tail of `_extract_code_block` once the opening marker has been
consumed: `end = text.find("```", start)`; if absent, `text[start:].strip()`,
otherwise `text[start:end].strip()`. -/
def extractFrom (text : List Char) (start : Nat) : List Char :=
  match pyFind text fenceL start with
  | none => pyStrip (text.drop start)
  | some e => pyStrip ((text.drop start).take (e - start))

/-- `HomeScreenGeneratorAgent._extract_code_block(text, language)`: try the
language-tagged marker first, then the bare marker; if neither occurs, the
whole text (stripped) is the payload. -/
def extract_code_block (text language : List Char) : List Char :=
  match pyFind text (fenceL ++ language) 0 with
  | some s => extractFrom text (s + (fenceL ++ language).length)
  | none =>
    match pyFind text fenceL 0 with
    | some s => extractFrom text (s + fenceL.length)
    | none => pyStrip text

/-! ## Navigation-section normalization:
`BasePageGenerator.parse_nav_sections` / `update_nav_sections`
(src/langchain_agents/agents/base_page_generator.py lines 79-81 and 292-294). -/

/-- The step `if "About Me" in sections: sections.remove("About Me")` followed
by `["About Me"] + sections` (Python `list.remove` drops the first occurrence). -/
def ensure_about_me_first (sections : List String) : List String :=
  let rest := if "About Me" ∈ sections then sections.erase "About Me" else sections
  "About Me" :: rest

/-! ## ResumeFactStore: `HomeScreenGeneratorAgent.generate_home_screen` and
`_parse_user_input` (src/langchain_agents/agents/home_screen_generator.py
lines 55-78 and 843-878). -/

/-- The four required personal-fact fields; `none` models a key that is
absent from the `personal_info` dict or mapped to JSON `null`. -/
structure PersonalInfo where
  name : Option String
  role : Option String
  bio : Option String
  contact : Option String
deriving DecidableEq

/-- Python truthiness of a dict lookup: `None` and missing keys are falsy,
and so is the empty string. -/
def truthy : Option String → Bool
  | none => false
  | some s => !s.isEmpty

/-- `_parse_user_input` post-processing of the parsed JSON:
`{k: v for k, v in parsed_info.items() if v}` (falsy values dropped). -/
def filter_truthy (p : PersonalInfo) : PersonalInfo where
  name := if truthy p.name then p.name else none
  role := if truthy p.role then p.role else none
  bio := if truthy p.bio then p.bio else none
  contact := if truthy p.contact then p.contact else none

/-- `generate_home_screen` step 2:
`self.personal_info.update({k: v for k, v in user_info.items() if v})` —
a stored field is replaced only by a truthy incoming value. -/
def update_if_truthy (stored incoming : PersonalInfo) : PersonalInfo where
  name := if truthy incoming.name then incoming.name else stored.name
  role := if truthy incoming.role then incoming.role else stored.role
  bio := if truthy incoming.bio then incoming.bio else stored.bio
  contact := if truthy incoming.contact then incoming.contact else stored.contact

/-- Merging one parsed user clarification (the raw JSON fields, `null` as
`none`) into the stored facts: `_parse_user_input` filters falsy fields, then
`generate_home_screen` updates the store with the truthy ones. -/
def merge_user_info (stored rawParsed : PersonalInfo) : PersonalInfo :=
  update_if_truthy stored (filter_truthy rawParsed)

/-- `required_fields = ['name', 'role', 'bio', 'contact']` (fixed order). -/
def required_fields : List String := ["name", "role", "bio", "contact"]

/-- `self.personal_info.get(field)` for the four required field names. -/
def get_field (p : PersonalInfo) (f : String) : Option String :=
  if f = "name" then p.name
  else if f = "role" then p.role
  else if f = "bio" then p.bio
  else if f = "contact" then p.contact
  else none

/-- `[field for field in required_fields if not self.personal_info.get(field)]`. -/
def missing_required_fields (p : PersonalInfo) : List String :=
  required_fields.filter (fun f => !truthy (get_field p f))

/-- Outcome of the required-field check in `generate_home_screen` lines 64-78:
either a normal `missing_info` return value (carrying the missing list and the
single field named in the message, `missing_fields[0]`), or generation
proceeds. -/
inductive HomeScreenOutcome where
  | missingInfo (missing_fields : List String) (promptField : String) : HomeScreenOutcome
  | proceed : HomeScreenOutcome
deriving DecidableEq

/-- The check `if missing_fields: return {status: "missing_info", ...}` with
the message prompting only for `missing_fields[0]`. -/
def check_required_info (p : PersonalInfo) : HomeScreenOutcome :=
  match missing_required_fields p with
  | [] => .proceed
  | m :: ms => .missingInfo (m :: ms) m

/-! ## UpdateDiffApplier: `HomeScreenGeneratorAgent._update_design`
(src/langchain_agents/agents/home_screen_generator.py lines 587-609), fed by
`_parse_update_request` (lines 940-972) whose JSON result holds, per artifact
kind, a change description or `null`. -/

/-- The current `self.html` / `self.css` / `self.js` artifact set on the
update path (all three are present there: `_update_design` falls back to
initial generation otherwise). -/
structure Artifacts where
  html : String
  css : String
  js : String
deriving DecidableEq

/-- The parsed update plan: keys `html`, `css`, `javascript`, each a change
description or `null` (`none`; a missing key behaves the same through
`updates_needed.get(...)`). -/
structure UpdatePlan where
  html : Option String
  css : Option String
  javascript : Option String
deriving DecidableEq

/-- `_update_design` after `_parse_update_request`: each component is
regenerated only when its plan entry is truthy; `updHtml`/`updCss`/`updJs`
are oracles for the `_update_html`/`_update_css`/`_update_javascript`
completion calls, receiving the change description and the current value of
that artifact (which their prompts embed). -/
def update_design (plan : UpdatePlan)
    (updHtml updCss updJs : String → String → String) (a : Artifacts) : Artifacts :=
  let a1 := if truthy plan.html then { a with html := updHtml (plan.html.getD "") a.html } else a
  let a2 := if truthy plan.css then { a1 with css := updCss (plan.css.getD "") a1.css } else a1
  if truthy plan.javascript then { a2 with js := updJs (plan.javascript.getD "") a2.js } else a2

/-! ## Stage ordering: `HomeScreenGeneratorAgent._generate_initial_design`
(src/langchain_agents/agents/home_screen_generator.py lines 120-134): three
sequentially awaited stages, `self.html = _generate_html()`, then
`self.css = _generate_css(self.html)`, then
`self.js = _generate_js(self.html, self.css)`. -/

/-- One completion-stage invocation, recording the prior-stage outputs that
the call receives in its prompt context. -/
inductive StageCall where
  | htmlStage : StageCall
  | cssStage (htmlInput : String) : StageCall
  | jsStage (htmlInput cssInput : String) : StageCall
deriving DecidableEq

/-- The mutable agent state (`self.html`, `self.css`, `self.js`) plus the
chronological log of stage invocations. -/
structure DesignState where
  html : Option String
  css : Option String
  js : Option String
  calls : List StageCall
deriving DecidableEq

/-- Oracle for the three generation stages (each models the entire
corresponding method, section fragments and combination included, as one
black-box completion result). -/
structure GenOracle where
  genHtml : String
  genCss : String → String
  genJs : String → String → String

/-- `self.html = await self._generate_html()`. -/
def run_generate_html (o : GenOracle) (s : DesignState) : DesignState :=
  { s with html := some o.genHtml, calls := s.calls ++ [.htmlStage] }

/-- `self.css = await self._generate_css(self.html)`; the call receives the
current `self.html` in its prompt. -/
def run_generate_css (o : GenOracle) (s : DesignState) : DesignState :=
  let h := s.html.getD ""
  { s with css := some (o.genCss h), calls := s.calls ++ [.cssStage h] }

/-- `self.js = await self._generate_js(self.html, self.css)`. -/
def run_generate_js (o : GenOracle) (s : DesignState) : DesignState :=
  let h := s.html.getD ""
  let c := s.css.getD ""
  { s with js := some (o.genJs h c), calls := s.calls ++ [.jsStage h c] }

/-- `_generate_initial_design`: the three stages awaited in sequence. -/
def generate_initial_design (o : GenOracle) (s : DesignState) : DesignState :=
  run_generate_js o (run_generate_css o (run_generate_html o s))

/-- Fresh agent state (`__init__`: `self.html = self.css = self.js = None`). -/
def initialAgentState : DesignState :=
  { html := none, css := none, js := none, calls := [] }

/-! ## A restricted model of `json.loads` for the routing step.
`PageRouter._route_request` (src/langchain_agents/agents/page_router.py lines
97-130) runs `tasks = json.loads(str(response).strip())` and then iterates
`tasks.items()`, so the only successfully consumed shape is a flat JSON
object mapping strings to strings.  The parser below accepts exactly that
shape (strings without escape sequences); every other response is a parse
failure, which in the source raises (`JSONDecodeError` for non-JSON text,
`AttributeError` from `.items()` for non-object JSON) — both are uncaught
exceptions with the same control flow, folded into one error outcome here. -/

def quoteChar : Char := Char.ofNat 34
def lbrace : Char := Char.ofNat 123
def rbrace : Char := Char.ofNat 125
def colonChar : Char := Char.ofNat 58
def commaChar : Char := Char.ofNat 44

/-- JSON insignificant whitespace. -/
def jsonWs (c : Char) : Bool := c = ' ' || c = '\t' || c = '\n' || c = '\r'

def skipWs (l : List Char) : List Char := l.dropWhile jsonWs

/-- Contents of a JSON string after its opening quote, up to the closing
quote (escape-free fragment of the JSON grammar). -/
def stringBody : List Char → Option (List Char × List Char)
  | [] => none
  | c :: rest =>
    if c = quoteChar then some ([], rest)
    else
      match stringBody rest with
      | some (s, r) => some (c :: s, r)
      | none => none

/-- A JSON string token preceded by optional whitespace. -/
def jString (l : List Char) : Option (List Char × List Char) :=
  match skipWs l with
  | [] => none
  | c :: rest => if c = quoteChar then stringBody rest else none

/-- Expect a single punctuation character preceded by optional whitespace. -/
def expectChar (c : Char) (l : List Char) : Option (List Char) :=
  match skipWs l with
  | [] => none
  | d :: rest => if d = c then some rest else none

/-- `"key": "value"` pairs separated by commas, terminated by the closing
brace (fuel-bounded recursion). -/
def jsonPairs : Nat → List Char → Option (List (List Char × List Char) × List Char)
  | 0, _ => none
  | fuel + 1, l =>
    match jString l with
    | none => none
    | some (key, r1) =>
      match expectChar colonChar r1 with
      | none => none
      | some r2 =>
        match jString r2 with
        | none => none
        | some (value, r3) =>
          match skipWs r3 with
          | [] => none
          | c :: r4 =>
            if c = commaChar then
              match jsonPairs fuel r4 with
              | none => none
              | some (ps, r5) => some ((key, value) :: ps, r5)
            else if c = rbrace then some ([(key, value)], r4)
            else none

/-- `json.loads` restricted to a flat string-to-string object (see the
section comment above); `none` models a raised exception. -/
def json_loads_obj (text : List Char) : Option (List (List Char × List Char)) :=
  match skipWs text with
  | [] => none
  | c :: rest =>
    if c = lbrace then
      match skipWs rest with
      | [] => none
      | d :: r2 =>
        if d = rbrace then (if (skipWs r2).isEmpty then some [] else none)
        else
          match jsonPairs (text.length + 1) rest with
          | none => none
          | some (ps, r) => if (skipWs r).isEmpty then some ps else none
    else none

/-! ## IntentRouter dispatch: `PageRouter._route_request` lines 114-130. -/

/-- The keys of `PageRouter.component_handlers`. -/
def known_components : List (List Char) :=
  ["shared".toList, "home".toList, "education".toList]

/-- Python `"\n"`. -/
def nlChar : Char := '\n'

/-- `"\n".join(responses)`. -/
def joinNl : List (List Char) → List Char
  | [] => []
  | [l] => l
  | l :: l2 :: ls => l ++ nlChar :: joinNl (l2 :: ls)

/-- Splitting a text into its newline-separated lines (the reading of "the
joined result contains one line per task"). -/
def splitNl : List Char → List (List Char)
  | [] => [[]]
  | c :: rest =>
    if c = nlChar then [] :: splitNl rest
    else
      match splitNl rest with
      | [] => [[c]]
      | s :: ss => (c :: s) :: ss

/-- The body of the dispatch loop for one `(task, component)` item: a known
component's handler (the `getattr(...)(task)` call, modelled by the `handler`
oracle returning either a result string or a raised exception) yields a
`✓ task: result` line, a raised exception an `✗ task: Error - ...` line, and
an unknown component an `✗ task: Unknown component ...` line. -/
def dispatch_task (handler : List Char → List Char → Except (List Char) (List Char))
    (tc : List Char × List Char) : List Char :=
  if tc.2 ∈ known_components then
    match handler tc.2 tc.1 with
    | .ok result => "✓ ".toList ++ tc.1 ++ ": ".toList ++ result
    | .error e => "✗ ".toList ++ tc.1 ++ ": Error - ".toList ++ e
  else
    "✗ ".toList ++ tc.1 ++ ": Unknown component ".toList ++ tc.2

/-- The dispatch loop `for task, component in tasks.items()` collecting one
response line per task. -/
def dispatch_all (handler : List Char → List Char → Except (List Char) (List Char))
    (tasks : List (List Char × List Char)) : List (List Char) :=
  tasks.map (dispatch_task handler)

/-- Marker line prefix used to count failure lines. -/
def startsCross (l : List Char) : Bool := isPre ("✗".toList) l

/-- Stand-in message for the exception raised by `json.loads` /
`tasks.items()` on an unparseable routing response. -/
def jsonErrMsg : List Char := "JSONDecodeError".toList

/-- Result of one `_route_request` call: the returned string or the raised
exception, plus the components whose handlers were invoked. -/
structure RouteOutcome where
  result : Except (List Char) (List Char)
  invoked : List (List Char)

/-- `PageRouter._route_request` after the routing completion call returned
`response`: `tasks = json.loads(str(response).strip())` is outside any
`try`, so a parse failure raises out of the method; otherwise each task is
dispatched in order and the per-task lines are joined. -/
def route_request (response : List Char)
    (handler : List Char → List Char → Except (List Char) (List Char)) : RouteOutcome :=
  match json_loads_obj (pyStrip response) with
  | none => { result := .error jsonErrMsg, invoked := [] }
  | some tasks =>
    { result := .ok (joinNl (dispatch_all handler tasks))
      invoked := (tasks.filter (fun tc => tc.2 ∈ known_components)).map (fun tc => tc.2) }

/-- `JobApplicationAgent.process` (src/langchain_agents/agent.py lines
229-240): the tool chain re-raises (`route_website_request` ends its
`except` clause with a bare `raise`), and `process` catches the exception at
the top and returns the string `f"Error: {str(e)}"`. -/
def process_top_level (response : List Char)
    (handler : List Char → List Char → Except (List Char) (List Char)) : List Char :=
  match (route_request response handler).result with
  | .ok s => s
  | .error e => "Error: ".toList ++ e

/-- A handler oracle that always succeeds (used for concrete evaluations). -/
def okHandler : List Char → List Char → Except (List Char) (List Char) :=
  fun c _ => .ok ("updated ".toList ++ c)

/-! ## Two-pass role extraction (resume ingestion). -/

/-- Modelled from the spec: the two-pass role-extraction policy of resume
ingestion.  The `HomeScreenGenerator` class that `PageRouter` and the tool
layer instantiate (`from .home_screen_generator import HomeScreenGenerator`)
is not among the provided sources — only its importers are — and the provided
variant class `HomeScreenGeneratorAgent` is referenced by nothing.  Per the
spec, the first pass asks for the role directly and a second, narrower pass
runs if and only if the first result is empty or the literal sentinel
`"Role Not Found"`.  `firstPass`/`secondPass` are the two completion
results; the returned flag records whether the second pass was invoked. -/
def extract_role_two_pass (firstPass secondPass : String) : String × Bool :=
  if firstPass = "" ∨ firstPass = "Role Not Found" then (secondPass, true)
  else (firstPass, false)

/-! ## Concrete oracles used for closed evaluations -/

/-- A concrete stage oracle. -/
def sampleOracle : GenOracle where
  genHtml := "H"
  genCss := fun h => "C:" ++ h
  genJs := fun h c => "J:" ++ h ++ c

/-- A concrete artifact-update oracle. -/
def sampleUpd : String → String → String := fun d v => v ++ "/" ++ d

/-! ## Helper lemmas -/

theorem isPre_append_self : ∀ p r : List Char, isPre p (p ++ r) = true
  | [], _ => rfl
  | c :: p, r => by simp [isPre, isPre_append_self p r]

theorem isPre_nil_of_ne (p : List Char) (hp : p ≠ []) : isPre p [] = false := by
  cases p with
  | nil => exact absurd rfl hp
  | cons c p => rfl

theorem findAux_eq_none (text pat : List Char) :
    ∀ (fuel i : Nat),
      (∀ j, i ≤ j → j < i + fuel → isPre pat (text.drop j) = false) →
      findAux text pat i fuel = none := by
  intro fuel
  induction fuel with
  | zero => intro i _; rfl
  | succ f ih =>
    intro i h
    have h0 : isPre pat (text.drop i) = false := h i (Nat.le_refl i) (by omega)
    simp only [findAux, h0, Bool.false_eq_true, if_false]
    exact ih (i + 1) (fun j hj1 hj2 => h j (by omega) (by omega))

theorem findAux_eq_some (text pat : List Char) :
    ∀ (fuel i k : Nat), i ≤ k → k < i + fuel →
      isPre pat (text.drop k) = true →
      (∀ j, i ≤ j → j < k → isPre pat (text.drop j) = false) →
      findAux text pat i fuel = some k := by
  intro fuel
  induction fuel with
  | zero => intro i k _ hk _ _; omega
  | succ f ih =>
    intro i k hik hk hpre hmin
    by_cases hi : i = k
    · subst hi
      simp only [findAux, hpre, if_true]
    · have h0 : isPre pat (text.drop i) = false :=
        hmin i (Nat.le_refl i) (Nat.lt_of_le_of_ne hik hi)
      simp only [findAux, h0, Bool.false_eq_true, if_false]
      exact ih (i + 1) k (by omega) (by omega) hpre
        (fun j hj1 hj2 => hmin j (by omega) hj2)

theorem pyFind_eq_some (text pat : List Char) (start k : Nat)
    (hs : start ≤ k) (hk : k ≤ text.length)
    (hpre : isPre pat (text.drop k) = true)
    (hmin : ∀ j, start ≤ j → j < k → isPre pat (text.drop j) = false) :
    pyFind text pat start = some k :=
  findAux_eq_some text pat _ start k hs (by omega) hpre hmin

theorem pyFind_eq_none (text pat : List Char) (start : Nat) (hp : pat ≠ [])
    (h : ∀ j, start ≤ j → j < text.length → isPre pat (text.drop j) = false) :
    pyFind text pat start = none := by
  apply findAux_eq_none
  intro j hj1 _
  by_cases hlt : j < text.length
  · exact h j hj1 hlt
  · rw [List.drop_of_length_le (by omega)]
    exact isPre_nil_of_ne pat hp

theorem drop_append_self (a r : List Char) : (a ++ r).drop a.length = r :=
  List.drop_left a r

theorem drop_append_add (a r : List Char) (n : Nat) :
    (a ++ r).drop (a.length + n) = r.drop n := by
  rw [← List.drop_drop, List.drop_left]

theorem fence_ne_nil : fenceL ≠ [] := by decide

theorem tagged_ne_nil (language : List Char) : fenceL ++ language ≠ [] := by
  simp [List.append_eq_nil, fence_ne_nil]

theorem splitNl_no_nl : ∀ a : List Char, nlChar ∉ a → splitNl a = [a] := by
  intro a
  induction a with
  | nil => intro _; rfl
  | cons c rest ih =>
    intro h
    have hc : ¬c = nlChar := fun hc => h (hc ▸ List.mem_cons_self c rest)
    have hr : nlChar ∉ rest := fun hm => h (List.mem_cons_of_mem c hm)
    simp only [splitNl, if_neg hc, ih hr]

theorem splitNl_append_nl : ∀ a b : List Char, nlChar ∉ a →
    splitNl (a ++ nlChar :: b) = a :: splitNl b := by
  intro a
  induction a with
  | nil => intro b _; simp [splitNl]
  | cons c rest ih =>
    intro b h
    have hc : ¬c = nlChar := fun hc => h (hc ▸ List.mem_cons_self c rest)
    have hr : nlChar ∉ rest := fun hm => h (List.mem_cons_of_mem c hm)
    simp only [List.cons_append, splitNl, if_neg hc, List.append_eq, ih b hr]

theorem splitNl_join_three (l1 l2 l3 : List Char)
    (h1 : nlChar ∉ l1) (h2 : nlChar ∉ l2) (h3 : nlChar ∉ l3) :
    splitNl (joinNl [l1, l2, l3]) = [l1, l2, l3] := by
  have e : joinNl [l1, l2, l3] = l1 ++ nlChar :: (l2 ++ nlChar :: l3) := rfl
  rw [e, splitNl_append_nl _ _ h1, splitNl_append_nl _ _ h2, splitNl_no_nl _ h3]

theorem merge_field_none (st v : Option String)
    (h : (if truthy v then v else none) = none) :
    (if truthy (if truthy v then v else none) then (if truthy v then v else none) else st) =
      st := by
  rw [h, if_neg (by decide : ¬truthy (none : Option String) = true)]

theorem merge_field_some (st v : Option String) (s : String)
    (h : (if truthy v then v else none) = some s) :
    (if truthy (if truthy v then v else none) then (if truthy v then v else none) else st) =
      some s := by
  by_cases hv : truthy v = true
  · rw [if_pos hv] at h
    subst h
    rw [if_pos hv, if_pos hv]
  · rw [if_neg hv] at h
    exact absurd h (by simp)

/-! ## Claim theorems -/

/-- C5: the navigation-section normalization step (remove "About Me" if
present, re-insert it first, keep the rest in order) is idempotent on every
ordered list of section names, and "About Me" is the first element of every
normalized result. -/
theorem nav_normalization_idempotent :
    ∀ l : List String,
      ensure_about_me_first (ensure_about_me_first l) = ensure_about_me_first l ∧
      (ensure_about_me_first l).head? = some "About Me" := by
  intro l
  refine ⟨?_, rfl⟩
  simp [ensure_about_me_first]

/-- C10: during resume ingestion the role field is produced by a first
completion pass, and the second, narrower pass runs if and only if the first
result is empty or the literal sentinel "Role Not Found"; a non-empty,
non-sentinel first-pass result is kept and triggers no second pass. -/
theorem role_two_pass_policy :
    ∀ firstPass secondPass : String,
      ((extract_role_two_pass firstPass secondPass).2 = true ↔
        firstPass = "" ∨ firstPass = "Role Not Found") ∧
      (firstPass ≠ "" → firstPass ≠ "Role Not Found" →
        extract_role_two_pass firstPass secondPass = (firstPass, false)) := by
  intro fp sp
  by_cases h : fp = "" ∨ fp = "Role Not Found"
  · unfold extract_role_two_pass
    rw [if_pos h]
    exact ⟨by simp [h], fun h1 h2 => absurd h (by simp [h1, h2])⟩
  · unfold extract_role_two_pass
    rw [if_neg h]
    exact ⟨by simp [h], fun _ _ => rfl⟩

/-- Closed instance of `role_two_pass_policy`. -/
theorem role_two_pass_policy_check :
    ("MS Student at Stanford" : String) ≠ "" ∧
    ("MS Student at Stanford" : String) ≠ "Role Not Found" ∧
    extract_role_two_pass "MS Student at Stanford" "retry" = ("MS Student at Stanford", false) :=
  ⟨by decide, by decide,
    (role_two_pass_policy "MS Student at Stanford" "retry").2 (by decide) (by decide)⟩

/-- C6: merging a parsed user clarification into the stored personal facts
never lets a null/absent field overwrite a stored value, and every field
present in the parsed clarification replaces the stored one; in particular
stored (name Alice, role null) merged with incoming (name null, role
Engineer) yields (name Alice, role Engineer). -/
theorem fact_merge_null_preserving :
    ∀ stored raw : PersonalInfo,
      ((filter_truthy raw).name = none →
          (merge_user_info stored raw).name = stored.name) ∧
      (∀ s, (filter_truthy raw).name = some s →
          (merge_user_info stored raw).name = some s) ∧
      ((filter_truthy raw).role = none →
          (merge_user_info stored raw).role = stored.role) ∧
      (∀ s, (filter_truthy raw).role = some s →
          (merge_user_info stored raw).role = some s) ∧
      ((filter_truthy raw).bio = none →
          (merge_user_info stored raw).bio = stored.bio) ∧
      (∀ s, (filter_truthy raw).bio = some s →
          (merge_user_info stored raw).bio = some s) ∧
      ((filter_truthy raw).contact = none →
          (merge_user_info stored raw).contact = stored.contact) ∧
      (∀ s, (filter_truthy raw).contact = some s →
          (merge_user_info stored raw).contact = some s) ∧
      merge_user_info ⟨some "Alice", none, none, none⟩ ⟨none, some "Engineer", none, none⟩ =
        ⟨some "Alice", some "Engineer", none, none⟩ := by
  intro stored raw
  exact ⟨fun h => merge_field_none stored.name raw.name h,
    fun s h => merge_field_some stored.name raw.name s h,
    fun h => merge_field_none stored.role raw.role h,
    fun s h => merge_field_some stored.role raw.role s h,
    fun h => merge_field_none stored.bio raw.bio h,
    fun s h => merge_field_some stored.bio raw.bio s h,
    fun h => merge_field_none stored.contact raw.contact h,
    fun s h => merge_field_some stored.contact raw.contact s h,
    by decide⟩

/-- Closed instance of `fact_merge_null_preserving`. -/
theorem fact_merge_null_preserving_check :
    (filter_truthy ⟨none, some "Engineer", none, none⟩).name = none ∧
    (merge_user_info ⟨some "Alice", none, none, none⟩
        ⟨none, some "Engineer", none, none⟩).name = some "Alice" :=
  ⟨by decide,
    (fact_merge_null_preserving ⟨some "Alice", none, none, none⟩
      ⟨none, some "Engineer", none, none⟩).1 (by decide)⟩

/-- C7: when required fields are missing, generation returns the normal
`missing_info` value listing the missing fields, and the message prompts only
for the first missing field in the fixed order name, role, bio, contact; with
name and bio present but role and contact absent the prompt names role,
never contact. -/
theorem missing_fields_prompt_first :
    (∀ p m ms, missing_required_fields p = m :: ms →
        check_required_info p = .missingInfo (m :: ms) m) ∧
    (∀ n b : String, n.isEmpty = false → b.isEmpty = false →
        missing_required_fields ⟨some n, none, some b, none⟩ = ["role", "contact"] ∧
        check_required_info ⟨some n, none, some b, none⟩ =
          .missingInfo ["role", "contact"] "role") := by
  constructor
  · intro p m ms h
    unfold check_required_info
    rw [h]
  · intro n b hn hb
    have h : missing_required_fields ⟨some n, none, some b, none⟩ = ["role", "contact"] := by
      have e1 : get_field ⟨some n, none, some b, none⟩ "name" = some n := rfl
      have e2 : get_field ⟨some n, none, some b, none⟩ "role" = none := rfl
      have e3 : get_field ⟨some n, none, some b, none⟩ "bio" = some b := rfl
      have e4 : get_field ⟨some n, none, some b, none⟩ "contact" = none := rfl
      simp [missing_required_fields, required_fields, e1, e2, e3, e4, truthy, hn, hb]
    refine ⟨h, ?_⟩
    unfold check_required_info
    rw [h]

/-- Closed instance of `missing_fields_prompt_first`. -/
theorem missing_fields_prompt_first_check :
    missing_required_fields ⟨some "Jane", none, some "a bio", none⟩ = ["role", "contact"] ∧
    check_required_info ⟨some "Jane", none, some "a bio", none⟩ =
      .missingInfo ["role", "contact"] "role" :=
  missing_fields_prompt_first.2 "Jane" "a bio" (by decide) (by decide)

/-- C8: applying an update plan regenerates only the artifact kinds whose
plan entry is truthy; every artifact whose plan entry is null keeps its
previous value, so a css-only change description leaves the stored html and
js byte-identical. -/
theorem update_scoping_frame :
    (∀ plan updHtml updCss updJs a,
        (plan.html = none → (update_design plan updHtml updCss updJs a).html = a.html) ∧
        (plan.css = none → (update_design plan updHtml updCss updJs a).css = a.css) ∧
        (plan.javascript = none → (update_design plan updHtml updCss updJs a).js = a.js)) ∧
    (∀ d updHtml updCss updJs a, d.isEmpty = false →
        update_design ⟨none, some d, none⟩ updHtml updCss updJs a =
          ⟨a.html, updCss d a.css, a.js⟩) := by
  constructor
  · intro plan f g h a
    obtain ⟨ph, pc, pj⟩ := plan
    refine ⟨?_, ?_, ?_⟩ <;> intro hnull <;> subst hnull <;>
      simp only [update_design, (show truthy (none : Option String) = false from rfl),
        Bool.false_eq_true, if_false] <;>
      split_ifs <;> rfl
  · intro d f g h a hd
    obtain ⟨ah, ac, aj⟩ := a
    have ht : truthy (some d) = true := by simp [truthy, hd]
    simp only [update_design, ht,
      if_pos rfl, if_neg (by decide : ¬truthy (none : Option String) = true), if_true]
    rfl

/-- Closed instance of `update_scoping_frame`. -/
theorem update_scoping_frame_check :
    update_design ⟨none, some "make it blue", none⟩ sampleUpd sampleUpd sampleUpd
        ⟨"H", "C", "J"⟩ =
      ⟨"H", sampleUpd "make it blue" "C", "J"⟩ :=
  update_scoping_frame.2 "make it blue" sampleUpd sampleUpd sampleUpd ⟨"H", "C", "J"⟩
    (by decide)

/-- C9: in one artifact-set generation the CSS stage call carries the
generated HTML in its input context and the JS stage call carries both the
HTML and the CSS; the invocation log shows the HTML stage strictly before
the CSS stage and the CSS stage strictly before the JS stage. -/
theorem stage_ordering_dataflow :
    ∀ o : GenOracle,
      (generate_initial_design o initialAgentState).calls =
        [.htmlStage, .cssStage o.genHtml, .jsStage o.genHtml (o.genCss o.genHtml)] ∧
      (generate_initial_design o initialAgentState).html = some o.genHtml ∧
      (generate_initial_design o initialAgentState).css = some (o.genCss o.genHtml) ∧
      (generate_initial_design o initialAgentState).js =
        some (o.genJs o.genHtml (o.genCss o.genHtml)) ∧
      (∀ h, StageCall.cssStage h ∈ (generate_initial_design o initialAgentState).calls →
        h = o.genHtml) ∧
      (∀ h c, StageCall.jsStage h c ∈ (generate_initial_design o initialAgentState).calls →
        h = o.genHtml ∧ c = o.genCss o.genHtml) := by
  intro o
  refine ⟨rfl, rfl, rfl, rfl, ?_, ?_⟩
  · intro h hm
    have e : (generate_initial_design o initialAgentState).calls =
        [.htmlStage, .cssStage o.genHtml, .jsStage o.genHtml (o.genCss o.genHtml)] := rfl
    rw [e] at hm
    simpa using hm
  · intro h c hm
    have e : (generate_initial_design o initialAgentState).calls =
        [.htmlStage, .cssStage o.genHtml, .jsStage o.genHtml (o.genCss o.genHtml)] := rfl
    rw [e] at hm
    simpa using hm

/-- Closed instance of `stage_ordering_dataflow`. -/
theorem stage_ordering_dataflow_check :
    "H" = sampleOracle.genHtml ∧ "C:H" = sampleOracle.genCss sampleOracle.genHtml :=
  (stage_ordering_dataflow sampleOracle).2.2.2.2.2 "H" "C:H" (by decide)

/-- C1 counterexample: with a routing completion that is not JSON, the claim
that `_route_request` returns a result string fails — the call raises (the
`json.loads` at page_router.py line 114 is outside every `try`), yielding the
error outcome, not an `Except.ok` result string. -/
theorem routing_parse_failure_raises :
    (route_request ("I cannot help with that".toList) okHandler).result =
      Except.error jsonErrMsg ∧
    (route_request ("I cannot help with that".toList) okHandler).invoked = [] :=
  ⟨rfl, rfl⟩

/-- C1 (amended): when the task-decomposition response cannot be parsed as
JSON the routing attempt is fatal for that instruction and never defaults to
a guessed component (no handler is invoked); the parse exception propagates
out of `_route_request`/`handle_request` (and through
`route_website_request`, which re-raises) and only the top-level
`JobApplicationAgent.process` converts it into the user-visible string
`"Error: ..."`. -/
theorem routing_parse_failure_propagates :
    ∀ (response : List Char)
      (handler : List Char → List Char → Except (List Char) (List Char)),
      json_loads_obj (pyStrip response) = none →
      (route_request response handler).result = Except.error jsonErrMsg ∧
      (route_request response handler).invoked = [] ∧
      process_top_level response handler = "Error: ".toList ++ jsonErrMsg := by
  intro response handler h
  refine ⟨?_, ?_, ?_⟩ <;> simp [route_request, process_top_level, h]

/-- Closed instance of `routing_parse_failure_propagates`. -/
theorem routing_parse_failure_propagates_check :
    json_loads_obj (pyStrip ("Sorry, here is a plan instead.".toList)) = none ∧
    process_top_level ("Sorry, here is a plan instead.".toList) okHandler =
      "Error: ".toList ++ jsonErrMsg :=
  ⟨rfl, (routing_parse_failure_propagates ("Sorry, here is a plan instead.".toList)
    okHandler rfl).2.2⟩

/-- C2: tasks are dispatched in the order returned and one task's failure
does not abort the rest — the joined result has exactly one line per task,
`✓ task: result` for successes and `✗ task: ...` for failures; with three
tasks of which only the second names an unknown component, the joined result
splits into three lines with exactly one `✗` line and the first and third
tasks' results unaffected. -/
theorem dispatch_task_isolation :
    (∀ (handler : List Char → List Char → Except (List Char) (List Char)) tasks,
        (dispatch_all handler tasks).length = tasks.length) ∧
    (∀ (handler : List Char → List Char → Except (List Char) (List Char))
        (t1 c1 t2 c2 t3 c3 r1 r3 : List Char),
        c1 ∈ known_components → c3 ∈ known_components → c2 ∉ known_components →
        handler c1 t1 = .ok r1 → handler c3 t3 = .ok r3 →
        nlChar ∉ t1 → nlChar ∉ r1 → nlChar ∉ t2 → nlChar ∉ c2 →
        nlChar ∉ t3 → nlChar ∉ r3 →
        splitNl (joinNl (dispatch_all handler [(t1, c1), (t2, c2), (t3, c3)])) =
          ["✓ ".toList ++ t1 ++ ": ".toList ++ r1,
           "✗ ".toList ++ t2 ++ ": Unknown component ".toList ++ c2,
           "✓ ".toList ++ t3 ++ ": ".toList ++ r3] ∧
        (dispatch_all handler [(t1, c1), (t2, c2), (t3, c3)]).countP startsCross = 1) := by
  constructor
  · intro handler tasks
    exact List.length_map tasks (dispatch_task handler)
  · intro handler t1 c1 t2 c2 t3 c3 r1 r3 hm1 hm3 hm2 hk1 hk3 n1 n2 n3 n4 n5 n6
    have e : dispatch_all handler [(t1, c1), (t2, c2), (t3, c3)] =
        ["✓ ".toList ++ t1 ++ ": ".toList ++ r1,
         "✗ ".toList ++ t2 ++ ": Unknown component ".toList ++ c2,
         "✓ ".toList ++ t3 ++ ": ".toList ++ r3] := by
      simp [dispatch_all, dispatch_task, hm1, hm2, hm3, hk1, hk3]
    have hl1 : nlChar ∉ "✓ ".toList ++ t1 ++ ": ".toList ++ r1 := by
      simp only [List.mem_append, not_or]
      exact ⟨⟨⟨by decide, n1⟩, by decide⟩, n2⟩
    have hl2 : nlChar ∉ "✗ ".toList ++ t2 ++ ": Unknown component ".toList ++ c2 := by
      simp only [List.mem_append, not_or]
      exact ⟨⟨⟨by decide, n3⟩, by decide⟩, n4⟩
    have hl3 : nlChar ∉ "✓ ".toList ++ t3 ++ ": ".toList ++ r3 := by
      simp only [List.mem_append, not_or]
      exact ⟨⟨⟨by decide, n5⟩, by decide⟩, n6⟩
    refine ⟨?_, ?_⟩
    · rw [e]
      exact splitNl_join_three _ _ _ hl1 hl2 hl3
    · rw [e]
      have s1 : startsCross ("✓ ".toList ++ t1 ++ ": ".toList ++ r1) = false := rfl
      have s2 : startsCross ("✗ ".toList ++ t2 ++ ": Unknown component ".toList ++ c2) =
          true := rfl
      have s3 : startsCross ("✓ ".toList ++ t3 ++ ": ".toList ++ r3) = false := rfl
      simp only [List.countP_cons, List.countP_nil, s1, s2, s3]
      rfl

/-- Closed instance of `dispatch_task_isolation`. -/
theorem dispatch_task_isolation_check :
    splitNl (joinNl (dispatch_all okHandler
        [("restyle nav".toList, "shared".toList),
         ("add a blog".toList, "blog".toList),
         ("update bio".toList, "home".toList)])) =
      ["✓ ".toList ++ "restyle nav".toList ++ ": ".toList ++ "updated shared".toList,
       "✗ ".toList ++ "add a blog".toList ++ ": Unknown component ".toList ++ "blog".toList,
       "✓ ".toList ++ "update bio".toList ++ ": ".toList ++ "updated home".toList] ∧
    (dispatch_all okHandler
        [("restyle nav".toList, "shared".toList),
         ("add a blog".toList, "blog".toList),
         ("update bio".toList, "home".toList)]).countP startsCross = 1 :=
  dispatch_task_isolation.2 okHandler
    "restyle nav".toList "shared".toList
    "add a blog".toList "blog".toList
    "update bio".toList "home".toList
    "updated shared".toList "updated home".toList
    (by decide) (by decide) (by decide) rfl rfl
    (by decide) (by decide) (by decide) (by decide) (by decide) (by decide)

theorem extract_tagged_closed (language a b c : List Char)
    (h1 : ∀ i, i < a.length →
        isPre (fenceL ++ language)
          ((a ++ ((fenceL ++ language) ++ (b ++ (fenceL ++ c)))).drop i) = false)
    (h2 : ∀ j, j < a.length + (fenceL ++ language).length + b.length →
        a.length + (fenceL ++ language).length ≤ j →
        isPre fenceL
          ((a ++ ((fenceL ++ language) ++ (b ++ (fenceL ++ c)))).drop j) = false) :
    extract_code_block (a ++ ((fenceL ++ language) ++ (b ++ (fenceL ++ c)))) language =
      pyStrip b := by
  have e1 : pyFind (a ++ ((fenceL ++ language) ++ (b ++ (fenceL ++ c))))
      (fenceL ++ language) 0 = some a.length := by
    apply pyFind_eq_some
    · exact Nat.zero_le _
    · simp only [List.length_append]
      omega
    · rw [drop_append_self]
      exact isPre_append_self _ _
    · intro j _ hj
      exact h1 j hj
  have e2 : pyFind (a ++ ((fenceL ++ language) ++ (b ++ (fenceL ++ c)))) fenceL
      (a.length + (fenceL ++ language).length) =
      some (a.length + (fenceL ++ language).length + b.length) := by
    apply pyFind_eq_some
    · omega
    · simp only [List.length_append]
      omega
    · rw [Nat.add_assoc, drop_append_add, drop_append_add, drop_append_self]
      exact isPre_append_self _ _
    · intro j hj1 hj2
      exact h2 j hj2 hj1
  have e4 : (a ++ ((fenceL ++ language) ++ (b ++ (fenceL ++ c)))).drop
      (a.length + (fenceL ++ language).length) = b ++ (fenceL ++ c) := by
    rw [drop_append_add, drop_append_self]
  have e5 : a.length + (fenceL ++ language).length + b.length -
      (a.length + (fenceL ++ language).length) = b.length := by
    omega
  simp only [extract_code_block, e1, extractFrom, e2, e4, e5, List.take_left]

theorem extract_untagged_closed (language a b c : List Char)
    (hA : ∀ i, i < (a ++ (fenceL ++ (b ++ (fenceL ++ c)))).length →
        isPre (fenceL ++ language)
          ((a ++ (fenceL ++ (b ++ (fenceL ++ c)))).drop i) = false)
    (hB : ∀ i, i < a.length →
        isPre fenceL ((a ++ (fenceL ++ (b ++ (fenceL ++ c)))).drop i) = false)
    (hC : ∀ j, j < a.length + fenceL.length + b.length →
        a.length + fenceL.length ≤ j →
        isPre fenceL ((a ++ (fenceL ++ (b ++ (fenceL ++ c)))).drop j) = false) :
    extract_code_block (a ++ (fenceL ++ (b ++ (fenceL ++ c)))) language = pyStrip b := by
  have eA : pyFind (a ++ (fenceL ++ (b ++ (fenceL ++ c)))) (fenceL ++ language) 0 = none :=
    pyFind_eq_none _ _ 0 (tagged_ne_nil language) (fun j _ hj => hA j hj)
  have eB : pyFind (a ++ (fenceL ++ (b ++ (fenceL ++ c)))) fenceL 0 = some a.length := by
    apply pyFind_eq_some
    · exact Nat.zero_le _
    · simp only [List.length_append]
      omega
    · rw [drop_append_self]
      exact isPre_append_self _ _
    · intro j _ hj
      exact hB j hj
  have eC : pyFind (a ++ (fenceL ++ (b ++ (fenceL ++ c)))) fenceL
      (a.length + fenceL.length) = some (a.length + fenceL.length + b.length) := by
    apply pyFind_eq_some
    · omega
    · simp only [List.length_append]
      omega
    · rw [Nat.add_assoc, drop_append_add, drop_append_add, drop_append_self]
      exact isPre_append_self _ _
    · intro j hj1 hj2
      exact hC j hj2 hj1
  have e4 : (a ++ (fenceL ++ (b ++ (fenceL ++ c)))).drop (a.length + fenceL.length) =
      b ++ (fenceL ++ c) := by
    rw [drop_append_add, drop_append_self]
  have e5 : a.length + fenceL.length + b.length - (a.length + fenceL.length) = b.length := by
    omega
  simp only [extract_code_block, eA, eB, extractFrom, eC, e4, e5, List.take_left]

theorem extract_no_fence_closed (language text : List Char)
    (hT : ∀ i, i < text.length → isPre (fenceL ++ language) (text.drop i) = false)
    (hF : ∀ i, i < text.length → isPre fenceL (text.drop i) = false) :
    extract_code_block text language = pyStrip text := by
  have eA : pyFind text (fenceL ++ language) 0 = none :=
    pyFind_eq_none _ _ 0 (tagged_ne_nil language) (fun j _ hj => hT j hj)
  have eB : pyFind text fenceL 0 = none :=
    pyFind_eq_none _ _ 0 fence_ne_nil (fun j _ hj => hF j hj)
  simp only [extract_code_block, eA, eB]

/-- C3: fence extraction prefers the language-tagged fence — whenever the
text holds a tagged fence (the first tagged occurrence opening it), its
contents are returned even if an untagged fence occurs earlier; the first
untagged fence opens the payload only when no tagged fence is present; and
with no fence at all the whole text, trimmed, is the payload. -/
theorem fence_extraction_tie_break :
    (∀ language a b c : List Char,
      (∀ i, i < a.length →
          isPre (fenceL ++ language)
            ((a ++ ((fenceL ++ language) ++ (b ++ (fenceL ++ c)))).drop i) = false) →
      (∀ j, j < a.length + (fenceL ++ language).length + b.length →
          a.length + (fenceL ++ language).length ≤ j →
          isPre fenceL
            ((a ++ ((fenceL ++ language) ++ (b ++ (fenceL ++ c)))).drop j) = false) →
      extract_code_block (a ++ ((fenceL ++ language) ++ (b ++ (fenceL ++ c)))) language =
        pyStrip b) ∧
    (∀ language a b c : List Char,
      (∀ i, i < (a ++ (fenceL ++ (b ++ (fenceL ++ c)))).length →
          isPre (fenceL ++ language)
            ((a ++ (fenceL ++ (b ++ (fenceL ++ c)))).drop i) = false) →
      (∀ i, i < a.length →
          isPre fenceL ((a ++ (fenceL ++ (b ++ (fenceL ++ c)))).drop i) = false) →
      (∀ j, j < a.length + fenceL.length + b.length →
          a.length + fenceL.length ≤ j →
          isPre fenceL ((a ++ (fenceL ++ (b ++ (fenceL ++ c)))).drop j) = false) →
      extract_code_block (a ++ (fenceL ++ (b ++ (fenceL ++ c)))) language = pyStrip b) ∧
    (∀ language text : List Char,
      (∀ i, i < text.length → isPre (fenceL ++ language) (text.drop i) = false) →
      (∀ i, i < text.length → isPre fenceL (text.drop i) = false) →
      extract_code_block text language = pyStrip text) :=
  ⟨fun language a b c h1 h2 => extract_tagged_closed language a b c h1 h2,
   fun language a b c hA hB hC => extract_untagged_closed language a b c hA hB hC,
   fun language text hT hF => extract_no_fence_closed language text hT hF⟩

/-- Closed instance of `fence_extraction_tie_break`: an untagged fence pair
occurs before the css-tagged fence, and the tagged contents are returned. -/
theorem fence_extraction_tie_break_check :
    extract_code_block
      ("```\nx\n``` then ".toList ++
        ((fenceL ++ "css".toList) ++ (" body ".toList ++ (fenceL ++ " tail".toList))))
      "css".toList = pyStrip " body ".toList :=
  fence_extraction_tie_break.1 "css".toList "```\nx\n``` then ".toList
    " body ".toList " tail".toList (by decide) (by decide)

/-- C4: an opening fence with no later closing fence yields everything after
the opener, trimmed, rather than a failure or an empty result. -/
theorem unterminated_fence_tolerance :
    ∀ language a b : List Char,
      (∀ i, i < a.length →
          isPre (fenceL ++ language)
            ((a ++ ((fenceL ++ language) ++ b)).drop i) = false) →
      (∀ j, j < (a ++ ((fenceL ++ language) ++ b)).length →
          a.length + (fenceL ++ language).length ≤ j →
          isPre fenceL ((a ++ ((fenceL ++ language) ++ b)).drop j) = false) →
      extract_code_block (a ++ ((fenceL ++ language) ++ b)) language = pyStrip b := by
  intro language a b h1 h2
  have e1 : pyFind (a ++ ((fenceL ++ language) ++ b)) (fenceL ++ language) 0 =
      some a.length := by
    apply pyFind_eq_some
    · exact Nat.zero_le _
    · simp only [List.length_append]
      omega
    · rw [drop_append_self]
      exact isPre_append_self _ _
    · intro j _ hj
      exact h1 j hj
  have e2 : pyFind (a ++ ((fenceL ++ language) ++ b)) fenceL
      (a.length + (fenceL ++ language).length) = none := by
    apply pyFind_eq_none
    · exact fence_ne_nil
    · intro j hj1 hj2
      exact h2 j hj2 hj1
  have e3 : (a ++ ((fenceL ++ language) ++ b)).drop
      (a.length + (fenceL ++ language).length) = b := by
    rw [drop_append_add, drop_append_self]
  simp only [extract_code_block, e1, extractFrom, e2, e3]

/-- Closed instance of `unterminated_fence_tolerance`. -/
theorem unterminated_fence_tolerance_check :
    extract_code_block
      ("Sure: ".toList ++ ((fenceL ++ "html".toList) ++ "\n<p>hi</p>\n".toList))
      "html".toList = pyStrip "\n<p>hi</p>\n".toList :=
  unterminated_fence_tolerance "html".toList "Sure: ".toList "\n<p>hi</p>\n".toList
    (by decide) (by decide)

end CS224V
